import Mathlib

/-!
Shallow embedding of the command gateway in `src/src/lvm.rs` of the
`lvm-sys2` crate.

The gateway wraps the external lvm2cmd engine: a global singleton holding the
engine handle (`static LVM`, a `LazyLock<Mutex<Result<Lvm, CommandRetCode>>>`),
a global string buffer collecting PRINT-severity log lines
(`CAPTURED_CMD_DATA`), a handoff channel plus condition variable
(`CHANNEL` / `DATA_ARRIVED`), a log callback (`log_capturer`), and the
orchestrators `Lvm::run`, `Lvm::_run` and `Lvm::acquire_and`.

External collaborators are modelled at their interface boundary, exactly as
the crate treats them:
  * the engine (`lvm2_init` / `lvm2_run` / the callback invocations the
    engine performs during `lvm2_run`) is an `Engine` parameter;
  * `serde_json::from_str` is a `parse : String → Except String Doc`
    parameter (the crate only pipes its success or its error through).

All global mutable state is gathered in one explicit record `GatewayState`;
each Rust function becomes a state transformer on it.  A closure executed
under the global lock finishes in one of three ways, captured by `FOutcome`:
it returns a value, it panics (the Rust mutex then becomes poisoned), or it
never returns at all (process abort from a panic inside the `extern "C"`
callback, or an indefinite block on the condition variable).
-/

set_option maxHeartbeats 1000000

/-- Addition to every command issued (`DEFAULT_LVM_FLAGS` in lvm.rs). -/
def DEFAULT_LVM_FLAGS : String := "--reportformat json"

/-- Possible command return codes (`enum CommandRetCode` in lvm.rs).
`InvalidCommandLine` carries the position of the embedded nul byte (the
payload of Rust's `NulError`); `JsonDeserializationFailed` carries the serde
error (rendered as text) together with the original captured string. -/
inductive CommandRetCode where
  | CommandSucceeded
  | NoSuchCommand
  | InvalidParameters
  | InitFailed
  | ProcessingFailed
  | Unknown (v : Int)
  | InvalidCommandLine (nulPos : Nat)
  | GlobalStatePoisoned
  | DataChannelPoisoned
  | JsonDeserializationFailed (err : String) (raw : String)
  deriving Repr, DecidableEq

/-- Mapping of the native i32 return code into `CommandRetCode`
(`impl From<i32> for CommandRetCode` in lvm.rs, lines 167-178). -/
def CommandRetCode.ofInt (v : Int) : CommandRetCode :=
  if v = 1 then .CommandSucceeded
  else if v = 2 then .NoSuchCommand
  else if v = 3 then .InvalidParameters
  else if v = 4 then .InitFailed
  else if v = 5 then .ProcessingFailed
  else .Unknown v

/-- Log severities (`enum LogLevel` in lvm.rs). -/
inductive LogLevel where
  | FATAL
  | ERROR
  | PRINT
  | VERBOSE
  | VERY_VERBOSE
  | DEBUG
  | UNKNOWN
  deriving Repr, DecidableEq

/-- Mapping of the native i32 severity (`impl From<c_int> for LogLevel`). -/
def LogLevel.ofInt (value : Int) : LogLevel :=
  if value = 2 then .FATAL
  else if value = 3 then .ERROR
  else if value = 4 then .PRINT
  else if value = 5 then .VERBOSE
  else if value = 6 then .VERY_VERBOSE
  else if value = 7 then .DEBUG
  else .UNKNOWN

/-- Arguments of one invocation of the `extern "C"` log callback. -/
structure LogEvent where
  level : Int
  file : String
  line : Int
  dmErrno : Int
  message : String
  deriving Repr, DecidableEq

/-- All global mutable state of the gateway, gathered in one record:
the poison flag and lazily-initialized cell of `static LVM`, the poison
flags of `CAPTURED_CMD_DATA` and `CHANNEL`, the captured-output buffer, the
channel queue, and instrumentation counters for the engine calls
(`initCalls` counts `lvm2_init` invocations, `runCalls` counts `lvm2_run`
invocations, `submitted` records the exact texts handed to `lvm2_run`). -/
structure GatewayState where
  lvmPoisoned : Bool
  lvmCell : Option (Except CommandRetCode Unit)
  capturedPoisoned : Bool
  channelPoisoned : Bool
  buffer : String
  channel : List String
  initCalls : Nat
  runCalls : Nat
  submitted : List String

/-- Model of the external lvm2cmd engine at its interface boundary:
`initOk` tells whether `lvm2_init` returns a non-null handle, and
`runBehavior` gives, for a submitted command text, the native return code of
`lvm2_run` together with the log lines the engine emits through the
registered callback during that invocation. -/
structure Engine where
  initOk : Bool
  runBehavior : String → Int × List LogEvent

/-- Outcome of running a closure under the global lock: a returned value, a
panic (after which the Rust mutex is poisoned), or no return at all (process
abort from a panic inside the `extern "C"` callback, or an indefinite block
on the condition variable with no producer). -/
inductive FOutcome (α : Type) where
  | value (a : α)
  | panicked
  | stuck
  deriving Repr, DecidableEq

/-- Position of the first embedded nul byte of a string, if any. -/
def nulPosition (s : String) : Option Nat :=
  s.toList.findIdx? (fun c => c = Char.ofNat 0)

/-- Model of `CString::from_str` as used in `Lvm::_run`: fails with the nul
position exactly when the text contains an embedded nul byte. -/
def cstringFromStr (s : String) : Except Nat String :=
  match nulPosition s with
  | some p => .error p
  | none => .ok s

/-- Literal placeholder document pushed by `log_capturer` when the command
emitted no PRINT messages. -/
def NO_MESSAGES_PLACEHOLDER : String :=
  "\x7b\"rust_logger\": \"no messages from command\"\x7d"

/-- Model of Rust `str::starts_with` as used in `log_capturer`: prefix test
on the character sequence. -/
def strStartsWith (s p : String) : Bool := p.toList.isPrefixOf s.toList

/-- Model of the `log_capturer` callback (lvm.rs lines 209-244).  `none`
models a panic inside the `extern "C"` callback — an `unwrap` on a poisoned
lock — which aborts the process.  On the completion marker (DEBUG severity,
origin file `lvmcmdline.c`, message starting with `Completed:`) the buffer,
or the placeholder if the buffer is empty, is drained into the channel and
the condition variable is signalled; PRINT messages are appended verbatim to
the buffer; everything else is ignored. -/
def log_capturer (ev : LogEvent) (st : GatewayState) : Option GatewayState :=
  if st.capturedPoisoned then none
  else if LogLevel.ofInt ev.level = .DEBUG ∧ ev.file = "lvmcmdline.c" then
    if strStartsWith ev.message "Completed:" then
      if st.channelPoisoned then none
      else some { st with
        buffer := ""
        channel := st.channel ++
          [if st.buffer.isEmpty then NO_MESSAGES_PLACEHOLDER else st.buffer] }
    else some st
  else if LogLevel.ofInt ev.level = .PRINT then
    some { st with buffer := st.buffer ++ ev.message }
  else some st

/-- Process, in order, the callback invocations the engine performs
synchronously inside one `lvm2_run` call. -/
def runEvents (evs : List LogEvent) (st : GatewayState) : Option GatewayState :=
  match evs with
  | [] => some st
  | ev :: rest =>
    match log_capturer ev st with
    | none => none
    | some st1 => runEvents rest st1

/-- Model of `Lvm::_run` (lvm.rs lines 63-89): convert the command to a
C string (rejecting embedded nuls), invoke `lvm2_run` (the callback fires
during the invocation), map the native return code, and on success read the
captured output from the channel and deserialize it. -/
def Lvm._run {Doc : Type} (parse : String → Except String Doc) (engine : Engine)
    (command : String) (st : GatewayState) :
    FOutcome (Except CommandRetCode Doc) × GatewayState :=
  match cstringFromStr command with
  | .error p => (.value (.error (.InvalidCommandLine p)), st)
  | .ok _ =>
    match runEvents (engine.runBehavior command).2
        { st with runCalls := st.runCalls + 1,
                  submitted := st.submitted ++ [command] } with
    | none =>
      (.stuck, { st with runCalls := st.runCalls + 1,
                         submitted := st.submitted ++ [command] })
    | some st2 =>
      match CommandRetCode.ofInt (engine.runBehavior command).1 with
      | .CommandSucceeded =>
        if st2.channelPoisoned then (.value (.error .GlobalStatePoisoned), st2)
        else
          match st2.channel with
          | [] => (.stuck, st2)
          | d :: rest =>
            match parse d with
            | .ok doc => (.value (.ok doc), { st2 with channel := rest })
            | .error e =>
              (.value (.error (.JsonDeserializationFailed e d)),
               { st2 with channel := rest })
      | other => (.value (.error other), st2)

/-- Model of `Lvm::new` together with the `LazyLock` forcing of `static LVM`:
on first access `lvm2_init` is invoked once and the resulting
`Result<Lvm, CommandRetCode>` is memoized in the cell; later accesses just
read the cell. -/
def forceLVM (engine : Engine) (st : GatewayState) :
    Except CommandRetCode Unit × GatewayState :=
  match st.lvmCell with
  | some r => (r, st)
  | none =>
    let r : Except CommandRetCode Unit :=
      if engine.initOk then .ok () else .error .InitFailed
    (r, { st with initCalls := st.initCalls + 1, lvmCell := some r })

/-- Model of `Lvm::acquire_and` (lvm.rs lines 104-116): a poisoned global
lock yields `GlobalStatePoisoned`; a memoized failed initialization yields
`InitFailed` (hardcoded); otherwise the closure runs with the handle, and a
panic inside it poisons the lock. -/
def Lvm.acquire_and {Y : Type} (engine : Engine)
    (f : GatewayState → FOutcome (Except CommandRetCode Y) × GatewayState)
    (st : GatewayState) : FOutcome (Except CommandRetCode Y) × GatewayState :=
  if st.lvmPoisoned then (.value (.error .GlobalStatePoisoned), st)
  else
    match forceLVM engine st with
    | (.ok _, st1) =>
      match f st1 with
      | (.value r, st2) => (.value r, st2)
      | (.panicked, st2) => (.panicked, { st2 with lvmPoisoned := true })
      | (.stuck, st2) => (.stuck, st2)
    | (.error _, st1) => (.value (.error .InitFailed), st1)

/-- Model of `Lvm::run` (lvm.rs lines 58-60): append the fixed protocol
suffix to the caller's command and run it through the singleton. -/
def Lvm.run {Doc : Type} (parse : String → Except String Doc) (engine : Engine)
    (command : String) (st : GatewayState) :
    FOutcome (Except CommandRetCode Doc) × GatewayState :=
  Lvm.acquire_and engine
    (fun lvm => Lvm._run parse engine (command ++ " " ++ DEFAULT_LVM_FLAGS) lvm)
    st

/-- Run a sequence of closures through `Lvm.acquire_and`, threading the
global state, and collect every outcome. -/
def acquireSeq {Y : Type} (engine : Engine)
    (fs : List (GatewayState → FOutcome (Except CommandRetCode Y) × GatewayState))
    (st : GatewayState) :
    List (FOutcome (Except CommandRetCode Y)) × GatewayState :=
  match fs with
  | [] => ([], st)
  | f :: rest =>
    let r := Lvm.acquire_and engine f st
    let rs := acquireSeq engine rest r.2
    (r.1 :: rs.1, rs.2)

/-- Exact concatenation, in order and with no separator, of a list of
strings. -/
def joinAll : List String → String
  | [] => ""
  | m :: ms => m ++ joinAll ms

/-- Concrete gateway state in which the singleton has been successfully
initialized and nothing is poisoned: empty buffer, empty channel. -/
def initReadyState : GatewayState :=
  { lvmPoisoned := false, lvmCell := some (.ok ()), capturedPoisoned := false,
    channelPoisoned := false, buffer := "", channel := [], initCalls := 1,
    runCalls := 0, submitted := [] }

/-! ## Helper lemmas -/

/-- Shape of one callback invocation: it either aborts or only ever changes
the `buffer` and `channel` fields of the state. -/
theorem log_capturer_shape (ev : LogEvent) (st : GatewayState) :
    log_capturer ev st = none ∨
    ∃ b c, log_capturer ev st = some { st with buffer := b, channel := c } := by
  unfold log_capturer
  split
  · exact .inl rfl
  · split
    · split
      · split
        · exact .inl rfl
        · exact .inr ⟨_, _, rfl⟩
      · exact .inr ⟨st.buffer, st.channel, rfl⟩
    · split
      · exact .inr ⟨_, _, rfl⟩
      · exact .inr ⟨st.buffer, st.channel, rfl⟩

/-- Processing the callbacks of one engine invocation leaves every state
field but `buffer` and `channel` unchanged. -/
theorem runEvents_frame (evs : List LogEvent) (st st2 : GatewayState)
    (h : runEvents evs st = some st2) :
    st2.lvmPoisoned = st.lvmPoisoned ∧ st2.lvmCell = st.lvmCell ∧
    st2.capturedPoisoned = st.capturedPoisoned ∧
    st2.channelPoisoned = st.channelPoisoned ∧
    st2.initCalls = st.initCalls ∧ st2.runCalls = st.runCalls ∧
    st2.submitted = st.submitted := by
  induction evs generalizing st with
  | nil =>
    unfold runEvents at h
    obtain rfl := Option.some.inj h
    exact ⟨rfl, rfl, rfl, rfl, rfl, rfl, rfl⟩
  | cons ev rest ih =>
    unfold runEvents at h
    rcases hs : log_capturer ev st with _ | st1
    · rw [hs] at h; cases h
    · rw [hs] at h
      have hrest := ih st1 h
      rcases log_capturer_shape ev st with hn | ⟨b, c, he⟩
      · rw [hn] at hs; cases hs
      · rw [he] at hs
        obtain rfl := Option.some.inj hs
        simpa using hrest

/-- Embedding a nul byte anywhere in the caller text makes the composed
command fail the C-string conversion. -/
theorem nulPosition_compose (command : String)
    (h : Char.ofNat 0 ∈ command.toList) :
    ∃ k, nulPosition (command ++ " " ++ DEFAULT_LVM_FLAGS) = some k := by
  unfold nulPosition
  have hmem : Char.ofNat 0 ∈ (command ++ " " ++ DEFAULT_LVM_FLAGS).toList := by
    simp only [String.toList, String.data_append, List.mem_append]
    exact Or.inl (Or.inl h)
  have hany :
      ((command ++ " " ++ DEFAULT_LVM_FLAGS).toList.any
        (fun c => c = Char.ofNat 0)) = true := by
    rw [List.any_eq_true]
    exact ⟨Char.ofNat 0, hmem, by simp⟩
  rw [← List.findIdx?_isSome] at hany
  exact Option.isSome_iff_exists.mp hany

/-! ## Claims -/

/-- C4: the native numeric return code is mapped into `CommandRetCode`
exactly by the fixed table: 1 to succeeded, 2 to no-such-command, 3 to
invalid-parameters, 4 to init-failed, 5 to processing-failed, and every
other integer to the unrecognized variant carrying the raw value. -/
theorem c4_retcode_table :
    CommandRetCode.ofInt 1 = .CommandSucceeded ∧
    CommandRetCode.ofInt 2 = .NoSuchCommand ∧
    CommandRetCode.ofInt 3 = .InvalidParameters ∧
    CommandRetCode.ofInt 4 = .InitFailed ∧
    CommandRetCode.ofInt 5 = .ProcessingFailed ∧
    ∀ v : Int, v ≠ 1 → v ≠ 2 → v ≠ 3 → v ≠ 4 → v ≠ 5 →
      CommandRetCode.ofInt v = .Unknown v := by
  refine ⟨rfl, rfl, rfl, rfl, rfl, ?_⟩
  intro v h1 h2 h3 h4 h5
  simp [CommandRetCode.ofInt, h1, h2, h3, h4, h5]

/-- Witness for C4 at the concrete unrecognized code 42. -/
theorem c4_retcode_table_witness : CommandRetCode.ofInt 42 = .Unknown 42 :=
  c4_retcode_table.2.2.2.2.2 42 (by decide) (by decide) (by decide)
    (by decide) (by decide)

/-- C1: for every command string containing an embedded nul byte, `Lvm::run`
returns the `InvalidCommandLine` error; the returned state equals the input
state, so in particular the engine run counter and the submission trace are
unchanged (the engine's run call is never invoked) and no state is
mutated. -/
theorem c1_embedded_nul_rejected {Doc : Type}
    (parse : String → Except String Doc) (engine : Engine)
    (command : String) (st : GatewayState)
    (hp : st.lvmPoisoned = false) (hc : st.lvmCell = some (.ok ()))
    (hnul : Char.ofNat 0 ∈ command.toList) :
    ∃ p, Lvm.run parse engine command st =
      (.value (.error (.InvalidCommandLine p)), st) := by
  obtain ⟨k, hk⟩ := nulPosition_compose command hnul
  refine ⟨k, ?_⟩
  simp [Lvm.run, Lvm.acquire_and, forceLVM, Lvm._run, cstringFromStr, hp, hc,
    hk]

/-- Witness for C1 at the concrete command `pvs\x00x`. -/
theorem c1_embedded_nul_rejected_witness :
    ∃ p, Lvm.run (fun _ => (Except.error "" : Except String Unit))
      ⟨true, fun _ => (1, [])⟩ "pvs\x00x" initReadyState =
      (.value (.error (.InvalidCommandLine p)), initReadyState) :=
  c1_embedded_nul_rejected _ _ _ _ rfl rfl (by decide)

/-- C2: a panic inside the closure passed to `acquire_and` poisons the global
lock, and once poisoned the state is absorbing: over any sequence of
subsequent calls, every call to `acquire_and` — and hence `Lvm::run` —
returns `GlobalStatePoisoned` and leaves the state (still poisoned)
unchanged; the outcome is the same for every closure, so no subsequent
acquisition ever invokes its closure or observes the engine handle. -/
theorem c2_poisoned_absorbing (Y Doc : Type) (engine : Engine)
    (parse : String → Except String Doc) (command : String) :
    (∀ (f : GatewayState → FOutcome (Except CommandRetCode Y) × GatewayState)
        (st : GatewayState), st.lvmPoisoned = false →
        st.lvmCell = some (.ok ()) → (f st).1 = .panicked →
        (Lvm.acquire_and engine f st).1 = .panicked ∧
        (Lvm.acquire_and engine f st).2.lvmPoisoned = true) ∧
    (∀ st : GatewayState, st.lvmPoisoned = true →
        (∀ fs : List (GatewayState →
            FOutcome (Except CommandRetCode Y) × GatewayState),
          (acquireSeq engine fs st).2 = st ∧
          ∀ r ∈ (acquireSeq engine fs st).1,
            r = .value (.error .GlobalStatePoisoned)) ∧
        Lvm.run parse engine command st =
          (.value (.error .GlobalStatePoisoned), st)) := by
  constructor
  · intro f st hp hc hpan
    unfold Lvm.acquire_and forceLVM
    rcases hfe : f st with ⟨o, st2⟩
    rw [hfe] at hpan
    simp only at hpan
    subst hpan
    simp [hp, hc, hfe]
  · intro st hps
    have habs : ∀ (Z : Type) (g : GatewayState →
        FOutcome (Except CommandRetCode Z) × GatewayState),
        Lvm.acquire_and engine g st =
          (.value (.error .GlobalStatePoisoned), st) := by
      intro Z g
      unfold Lvm.acquire_and
      simp [hps]
    constructor
    · intro fs
      induction fs with
      | nil => exact ⟨rfl, by simp [acquireSeq]⟩
      | cons f rest ih =>
        simp only [acquireSeq, habs Y f]
        refine ⟨ih.1, ?_⟩
        intro r hr
        rcases List.mem_cons.mp hr with rfl | hr2
        · rfl
        · exact ih.2 r hr2
    · unfold Lvm.run
      exact habs Doc _

/-- Witness for C2: a concrete panicking closure poisons the lock, and from
the concretely poisoned state `Lvm::run` returns `GlobalStatePoisoned`. -/
theorem c2_poisoned_absorbing_witness :
    ((Lvm.acquire_and ⟨true, fun _ => (1, [])⟩
        (fun s => ((FOutcome.panicked : FOutcome (Except CommandRetCode Unit)),
          s)) initReadyState).1 = .panicked ∧
      (Lvm.acquire_and ⟨true, fun _ => (1, [])⟩
        (fun s => ((FOutcome.panicked : FOutcome (Except CommandRetCode Unit)),
          s)) initReadyState).2.lvmPoisoned = true) ∧
    Lvm.run (fun _ => (Except.error "" : Except String Unit))
      ⟨true, fun _ => (1, [])⟩ "pvs"
      { initReadyState with lvmPoisoned := true } =
      (.value (.error .GlobalStatePoisoned),
       { initReadyState with lvmPoisoned := true }) :=
  ⟨(c2_poisoned_absorbing Unit Unit ⟨true, fun _ => (1, [])⟩
      (fun _ => Except.error "") "pvs").1
      (fun s => (FOutcome.panicked, s)) initReadyState rfl rfl rfl,
   ((c2_poisoned_absorbing Unit Unit ⟨true, fun _ => (1, [])⟩
      (fun _ => Except.error "") "pvs").2
      { initReadyState with lvmPoisoned := true } rfl).2⟩

/-- Running the inner command never touches the singleton cell, the init
counter, or the global-lock poison flag. -/
theorem run_inner_state {Doc : Type} (parse : String → Except String Doc)
    (engine : Engine) (command : String) (st : GatewayState) :
    (Lvm._run parse engine command st).2.initCalls = st.initCalls ∧
    (Lvm._run parse engine command st).2.lvmCell = st.lvmCell ∧
    (Lvm._run parse engine command st).2.lvmPoisoned = st.lvmPoisoned := by
  unfold Lvm._run
  rcases hcs : cstringFromStr command with p | s
  · simp [hcs]
  · simp only [hcs]
    rcases hre : runEvents (engine.runBehavior command).2
        { st with runCalls := st.runCalls + 1,
                  submitted := st.submitted ++ [command] } with _ | st2
    · simp [hre]
    · simp only [hre]
      obtain ⟨f1, f2, f3, f4, f5, f6, f7⟩ := runEvents_frame _ _ _ hre
      split
      · split
        · exact ⟨f5, f2, f1⟩
        · split
          · exact ⟨f5, f2, f1⟩
          · split
            · exact ⟨f5, f2, f1⟩
            · exact ⟨f5, f2, f1⟩
      · exact ⟨f5, f2, f1⟩

/-- C3: initialization is performed at most once and memoized forever.
After a successful initialization (`lvmCell = some (ok)`) a call to
`Lvm::run` never re-invokes the engine's init call and leaves the memoized
cell intact; on the very first acquisition the init call runs exactly once
and its outcome — success or failure — is stored; and once initialization
has failed, every `acquire_and` returns `InitFailed` with the state (and so
the init counter) unchanged, for every closure, so initialization is never
retried. -/
theorem c3_init_memoized (Doc : Type) (parse : String → Except String Doc)
    (engine : Engine) (command : String) :
    (∀ st : GatewayState, st.lvmCell = some (.ok ()) →
      (Lvm.run parse engine command st).2.initCalls = st.initCalls ∧
      (Lvm.run parse engine command st).2.lvmCell = some (.ok ())) ∧
    (∀ st : GatewayState, st.lvmPoisoned = false → st.lvmCell = none →
      (Lvm.run parse engine command st).2.lvmCell =
        some (if engine.initOk then .ok () else .error .InitFailed) ∧
      (Lvm.run parse engine command st).2.initCalls = st.initCalls + 1) ∧
    (∀ (Y : Type) (st : GatewayState) (e : CommandRetCode)
        (f : GatewayState → FOutcome (Except CommandRetCode Y) × GatewayState),
      st.lvmPoisoned = false → st.lvmCell = some (.error e) →
      Lvm.acquire_and engine f st = (.value (.error .InitFailed), st)) := by
  refine ⟨?_, ?_, ?_⟩
  · intro st hc
    unfold Lvm.run Lvm.acquire_and forceLVM
    by_cases hp : st.lvmPoisoned
    · simp [hp, hc]
    · have hr := run_inner_state parse engine
        (command ++ " " ++ DEFAULT_LVM_FLAGS) st
      rcases hrun : Lvm._run parse engine
          (command ++ " " ++ DEFAULT_LVM_FLAGS) st with ⟨o, st2⟩
      rw [hrun] at hr
      simp only at hr
      cases o <;> simp [hp, hc, hrun, hr.1, hc ▸ hr.2.1]
  · intro st hp hc
    have hp2 : ¬(st.lvmPoisoned = true) := by simp [hp]
    unfold Lvm.run Lvm.acquire_and forceLVM
    by_cases hio : engine.initOk
    · have hr := run_inner_state parse engine
        (command ++ " " ++ DEFAULT_LVM_FLAGS)
        { st with initCalls := st.initCalls + 1, lvmCell := some (.ok ()) }
      rcases hrun : Lvm._run parse engine
          (command ++ " " ++ DEFAULT_LVM_FLAGS)
          { st with initCalls := st.initCalls + 1,
                    lvmCell := some (.ok ()) } with ⟨o, st2⟩
      rw [hrun] at hr
      simp only at hr
      rw [hp] at hrun
      cases o <;> simp [hp2, hc, hio, hrun, hr.1, hr.2.1]
    · simp [hp2, hc, hio]
  · intro Y st e f hp hc
    unfold Lvm.acquire_and forceLVM
    simp [hp, hc]

/-- Witness for C3: on the concretely initialized state a run keeps the init
counter at 1, and from a concretely failed-init state `acquire_and` returns
`InitFailed` with the state unchanged. -/
theorem c3_init_memoized_witness :
    ((Lvm.run (fun _ => (Except.error "" : Except String Unit))
        ⟨true, fun _ => (1, [])⟩ "pvs" initReadyState).2.initCalls =
          initReadyState.initCalls ∧
      (Lvm.run (fun _ => (Except.error "" : Except String Unit))
        ⟨true, fun _ => (1, [])⟩ "pvs" initReadyState).2.lvmCell =
          some (.ok ())) ∧
    Lvm.acquire_and ⟨true, fun _ => (1, [])⟩
      (fun s => ((FOutcome.value (Except.ok ()) :
          FOutcome (Except CommandRetCode Unit)), s))
      { initReadyState with lvmCell := some (.error .InitFailed) } =
      (.value (.error .InitFailed),
       { initReadyState with lvmCell := some (.error .InitFailed) }) :=
  ⟨(c3_init_memoized Unit (fun _ => Except.error "") ⟨true, fun _ => (1, [])⟩
      "pvs").1 initReadyState rfl,
   (c3_init_memoized Unit (fun _ => Except.error "") ⟨true, fun _ => (1, [])⟩
      "pvs").2.2 Unit
      { initReadyState with lvmCell := some (.error .InitFailed) } .InitFailed
      (fun s => (FOutcome.value (Except.ok ()), s)) rfl rfl⟩

/-- C5: if the engine's run call returns any native code other than
succeeded, `Lvm::_run` returns that mapped code as an error with the state
exactly as the engine's callbacks left it: the channel is not read and the
conclusion does not involve `parse` at all, so the output-capture step
(channel read and deserialization) is skipped entirely. -/
theorem c5_failure_skips_capture (Doc : Type)
    (parse : String → Except String Doc) (engine : Engine)
    (command : String) (st st2 : GatewayState)
    (hcs : nulPosition command = none)
    (hev : runEvents (engine.runBehavior command).2
      { st with runCalls := st.runCalls + 1,
                submitted := st.submitted ++ [command] } = some st2)
    (hrc : CommandRetCode.ofInt (engine.runBehavior command).1 ≠
      .CommandSucceeded) :
    Lvm._run parse engine command st =
      (.value (.error (CommandRetCode.ofInt (engine.runBehavior command).1)),
       st2) := by
  unfold Lvm._run
  rcases hc2 : cstringFromStr command with p | s
  · unfold cstringFromStr at hc2
    rw [hcs] at hc2
    cases hc2
  · simp only [hc2, hev]

/-- Witness for C5: a concrete engine returning native code 5 makes `_run`
report `ProcessingFailed` and leave the channel untouched. -/
theorem c5_failure_skips_capture_witness :
    Lvm._run (fun _ => (Except.error "" : Except String Unit))
      ⟨true, fun _ => (5, [])⟩ "vgs" initReadyState =
      (.value (.error .ProcessingFailed),
       { initReadyState with runCalls := 1, submitted := ["vgs"] }) :=
  c5_failure_skips_capture Unit (fun _ => Except.error "")
    ⟨true, fun _ => (5, [])⟩ "vgs" initReadyState
    { initReadyState with runCalls := 1, submitted := ["vgs"] }
    rfl rfl (by decide)

/-- C6: on the completion marker (DEBUG severity, origin `lvmcmdline.c`,
message starting with the `Completed:` prefix) the callback pushes the
literal placeholder document onto the channel when the captured buffer is
empty, and the buffer's current contents otherwise; end to end, a command
whose engine invocation emits only the completion marker and no print line
returns the parsed placeholder document. -/
theorem c6_placeholder (Doc : Type) (parse : String → Except String Doc) :
    (∀ (st : GatewayState) (ev : LogEvent),
      LogLevel.ofInt ev.level = .DEBUG → ev.file = "lvmcmdline.c" →
      strStartsWith ev.message "Completed:" = true →
      st.capturedPoisoned = false → st.channelPoisoned = false →
      log_capturer ev st = some { st with
        buffer := ""
        channel := st.channel ++
          [if st.buffer.isEmpty then NO_MESSAGES_PLACEHOLDER
           else st.buffer] }) ∧
    (∀ (engine : Engine) (command : String) (ev : LogEvent) (doc : Doc),
      nulPosition (command ++ " " ++ DEFAULT_LVM_FLAGS) = none →
      engine.runBehavior (command ++ " " ++ DEFAULT_LVM_FLAGS) = (1, [ev]) →
      LogLevel.ofInt ev.level = .DEBUG → ev.file = "lvmcmdline.c" →
      strStartsWith ev.message "Completed:" = true →
      parse NO_MESSAGES_PLACEHOLDER = .ok doc →
      Lvm.run parse engine command initReadyState =
        (.value (.ok doc),
         { initReadyState with
           runCalls := 1
           submitted := [command ++ " " ++ DEFAULT_LVM_FLAGS] })) := by
  have hmark : ∀ (st : GatewayState) (ev : LogEvent),
      LogLevel.ofInt ev.level = .DEBUG → ev.file = "lvmcmdline.c" →
      strStartsWith ev.message "Completed:" = true →
      st.capturedPoisoned = false → st.channelPoisoned = false →
      log_capturer ev st = some { st with
        buffer := ""
        channel := st.channel ++
          [if st.buffer.isEmpty then NO_MESSAGES_PLACEHOLDER
           else st.buffer] } := by
    intro st ev h1 h2 h3 h4 h5
    simp [log_capturer, h1, h2, h3, h4, h5]
  refine ⟨hmark, ?_⟩
  intro engine command ev doc hcs heng h1 h2 h3 hparse
  have hcap := hmark { initReadyState with runCalls := 1, submitted := [command ++ " " ++ DEFAULT_LVM_FLAGS] } ev h1 h2 h3 rfl rfl
  have hbe : String.isEmpty "" = true := by decide
  have hc2 : cstringFromStr (command ++ " " ++ DEFAULT_LVM_FLAGS) =
      .ok (command ++ " " ++ DEFAULT_LVM_FLAGS) := by
    unfold cstringFromStr; rw [hcs]
  simp only [initReadyState, hbe] at hcap
  unfold Lvm.run Lvm.acquire_and forceLVM Lvm._run
  simp [initReadyState, hc2, heng, runEvents, hcap, hparse, hbe,
    CommandRetCode.ofInt]

/-- Witness for C6: a concrete fake engine emitting only the completion
marker makes the gateway return the parsed placeholder document. -/
theorem c6_placeholder_witness :
    Lvm.run
      (fun s => if s = NO_MESSAGES_PLACEHOLDER then Except.ok ()
        else (Except.error "e" : Except String Unit))
      ⟨true, fun _ =>
        (1, [⟨7, "lvmcmdline.c", 3325, 0, "Completed: pvs --reportformat json"⟩])⟩
      "pvs" initReadyState =
      (.value (.ok ()),
       { initReadyState with
         runCalls := 1
         submitted := ["pvs" ++ " " ++ DEFAULT_LVM_FLAGS] }) :=
  (c6_placeholder Unit
      (fun s => if s = NO_MESSAGES_PLACEHOLDER then Except.ok ()
        else (Except.error "e" : Except String Unit))).2
    ⟨true, fun _ =>
      (1, [⟨7, "lvmcmdline.c", 3325, 0, "Completed: pvs --reportformat json"⟩])⟩
    "pvs" ⟨7, "lvmcmdline.c", 3325, 0, "Completed: pvs --reportformat json"⟩ ()
    (by decide) rfl rfl rfl (by decide) (by simp)

/-- Splitting a callback sequence splits its processing. -/
theorem runEvents_append (a b : List LogEvent) (st : GatewayState) :
    runEvents (a ++ b) st = (runEvents a st).bind (runEvents b) := by
  induction a generalizing st with
  | nil => simp [runEvents]
  | cons ev rest ih =>
    simp only [List.cons_append, runEvents]
    rcases hlc : log_capturer ev st with _ | st1 <;> simp [hlc, ih]

/-- C7: for every sequence of print-severity callbacks the captured text is
the exact concatenation of the message texts in callback order, with no
inserted delimiter; consequently two engines whose print lines concatenate
to the same text, followed by the same completion callback, make `Lvm::run`
return the same result — a document split across several print callbacks
round-trips to the same parsed document. -/
theorem c7_print_concatenation (Doc : Type)
    (parse : String → Except String Doc) :
    (∀ (evs : List LogEvent) (st : GatewayState),
      st.capturedPoisoned = false →
      (∀ ev ∈ evs, LogLevel.ofInt ev.level = .PRINT) →
      runEvents evs st = some { st with
        buffer := st.buffer ++ joinAll (evs.map LogEvent.message) }) ∧
    (∀ (engine1 engine2 : Engine) (command : String)
        (evs1 evs2 : List LogEvent) (marker : LogEvent),
      nulPosition (command ++ " " ++ DEFAULT_LVM_FLAGS) = none →
      engine1.runBehavior (command ++ " " ++ DEFAULT_LVM_FLAGS) =
        (1, evs1 ++ [marker]) →
      engine2.runBehavior (command ++ " " ++ DEFAULT_LVM_FLAGS) =
        (1, evs2 ++ [marker]) →
      (∀ ev ∈ evs1, LogLevel.ofInt ev.level = .PRINT) →
      (∀ ev ∈ evs2, LogLevel.ofInt ev.level = .PRINT) →
      joinAll (evs1.map LogEvent.message) =
        joinAll (evs2.map LogEvent.message) →
      Lvm.run parse engine1 command initReadyState =
        Lvm.run parse engine2 command initReadyState) := by
  have hconc : ∀ (evs : List LogEvent) (st : GatewayState),
      st.capturedPoisoned = false →
      (∀ ev ∈ evs, LogLevel.ofInt ev.level = .PRINT) →
      runEvents evs st = some { st with
        buffer := st.buffer ++ joinAll (evs.map LogEvent.message) } := by
    intro evs
    induction evs with
    | nil =>
      intro st hcp hp
      simp [runEvents, joinAll]
    | cons ev rest ih =>
      intro st hcp hp
      have hev : LogLevel.ofInt ev.level = .PRINT := hp ev (by simp)
      have hlc : log_capturer ev st =
          some { st with buffer := st.buffer ++ ev.message } := by
        simp [log_capturer, hcp, hev]
      have ihst := ih { st with buffer := st.buffer ++ ev.message } hcp
        (fun e he => hp e (by simp [he]))
      simp [runEvents, hlc, ihst, joinAll, String.append_assoc]
  refine ⟨hconc, ?_⟩
  intro engine1 engine2 command evs1 evs2 marker hcs he1 he2 hp1 hp2 hjoin
  have hc2 : cstringFromStr (command ++ " " ++ DEFAULT_LVM_FLAGS) =
      .ok (command ++ " " ++ DEFAULT_LVM_FLAGS) := by
    unfold cstringFromStr; rw [hcs]
  have h1 := hconc evs1 { initReadyState with runCalls := 1, submitted := [command ++ " " ++ DEFAULT_LVM_FLAGS] } rfl hp1
  have h2 := hconc evs2 { initReadyState with runCalls := 1, submitted := [command ++ " " ++ DEFAULT_LVM_FLAGS] } rfl hp2
  simp only [initReadyState] at h1 h2
  unfold Lvm.run Lvm.acquire_and forceLVM Lvm._run
  simp [initReadyState, hc2, he1, he2, runEvents_append, h1, h2, hjoin]

/-- Witness for C7: the document split into `{"a"` and `:1}` across two
print callbacks yields exactly the same gateway result as the one-piece
`{"a":1}`, for the identity parser. -/
theorem c7_print_concatenation_witness :
    Lvm.run (fun s => (Except.ok s : Except String String))
      ⟨true, fun _ => (1, [⟨4, "f", 0, 0, "\x7b\"a\""⟩, ⟨4, "f", 0, 0, ":1\x7d"⟩,
        ⟨7, "lvmcmdline.c", 0, 0, "Completed: pvs"⟩])⟩
      "pvs" initReadyState =
    Lvm.run (fun s => (Except.ok s : Except String String))
      ⟨true, fun _ => (1, [⟨4, "f", 0, 0, "\x7b\"a\":1\x7d"⟩,
        ⟨7, "lvmcmdline.c", 0, 0, "Completed: pvs"⟩])⟩
      "pvs" initReadyState :=
  (c7_print_concatenation String (fun s => Except.ok s)).2
    ⟨true, fun _ => (1, [⟨4, "f", 0, 0, "\x7b\"a\""⟩, ⟨4, "f", 0, 0, ":1\x7d"⟩,
      ⟨7, "lvmcmdline.c", 0, 0, "Completed: pvs"⟩])⟩
    ⟨true, fun _ => (1, [⟨4, "f", 0, 0, "\x7b\"a\":1\x7d"⟩,
      ⟨7, "lvmcmdline.c", 0, 0, "Completed: pvs"⟩])⟩
    "pvs"
    [⟨4, "f", 0, 0, "\x7b\"a\""⟩, ⟨4, "f", 0, 0, ":1\x7d"⟩]
    [⟨4, "f", 0, 0, "\x7b\"a\":1\x7d"⟩]
    ⟨7, "lvmcmdline.c", 0, 0, "Completed: pvs"⟩
    (by decide) rfl rfl (by decide) (by decide) (by decide)

/-- C8: when the captured text fails to parse, `Lvm::_run` returns
`JsonDeserializationFailed` carrying both the parse error and the original
captured text, unmodified: the raw component of the error is exactly the
string that was read from the channel. -/
theorem c8_deser_failure (Doc : Type) (parse : String → Except String Doc)
    (engine : Engine) (command : String) (st st2 : GatewayState)
    (d : String) (rest : List String) (e : String)
    (hcs : nulPosition command = none)
    (hev : runEvents (engine.runBehavior command).2
      { st with runCalls := st.runCalls + 1,
                submitted := st.submitted ++ [command] } = some st2)
    (hrc : CommandRetCode.ofInt (engine.runBehavior command).1 =
      .CommandSucceeded)
    (hchp : st2.channelPoisoned = false)
    (hch : st2.channel = d :: rest)
    (hparse : parse d = .error e) :
    Lvm._run parse engine command st =
      (.value (.error (.JsonDeserializationFailed e d)),
       { st2 with channel := rest }) := by
  unfold Lvm._run
  rcases hc2 : cstringFromStr command with p | s
  · unfold cstringFromStr at hc2
    rw [hcs] at hc2
    cases hc2
  · simp [hc2, hev, hrc, hchp, hch, hparse]

/-- Witness for C8: a fake engine printing `not json` then completing makes
`_run` fail with the parse error and the raw text `not json` carried
exactly. -/
theorem c8_deser_failure_witness :
    Lvm._run (fun _ => (Except.error "expected value" : Except String Unit))
      ⟨true, fun _ => (1, [⟨4, "f", 0, 0, "not json"⟩,
        ⟨7, "lvmcmdline.c", 0, 0, "Completed: pvs"⟩])⟩
      "pvs" initReadyState =
      (.value (.error (.JsonDeserializationFailed "expected value"
        "not json")),
       { initReadyState with runCalls := 1, submitted := ["pvs"] }) :=
  c8_deser_failure Unit (fun _ => Except.error "expected value")
    ⟨true, fun _ => (1, [⟨4, "f", 0, 0, "not json"⟩,
      ⟨7, "lvmcmdline.c", 0, 0, "Completed: pvs"⟩])⟩
    "pvs" initReadyState
    { initReadyState with runCalls := 1, submitted := ["pvs"], channel := ["not json"] }
    "not json" [] "expected value"
    (by decide)
    (by simp [runEvents, log_capturer, initReadyState, strStartsWith,
          LogLevel.ofInt]
        decide)
    rfl rfl rfl rfl

/-- The submission trace after the inner runner: either untouched (rejected
command) or extended by exactly the submitted text. -/
theorem run_inner_submitted (Doc : Type) (parse : String → Except String Doc)
    (engine : Engine) (command : String) (st : GatewayState) :
    (Lvm._run parse engine command st).2.submitted = st.submitted ∨
    (Lvm._run parse engine command st).2.submitted =
      st.submitted ++ [command] := by
  unfold Lvm._run
  rcases hc2 : cstringFromStr command with p | s
  · left; simp [hc2]
  · right
    simp only [hc2]
    rcases hre : runEvents (engine.runBehavior command).2
        { st with runCalls := st.runCalls + 1,
                  submitted := st.submitted ++ [command] } with _ | st2
    · simp [hre]
    · simp only [hre]
      have hf := runEvents_frame _ _ _ hre
      split
      · split
        · exact hf.2.2.2.2.2.2
        · split
          · exact hf.2.2.2.2.2.2
          · split
            · exact hf.2.2.2.2.2.2
            · exact hf.2.2.2.2.2.2
      · exact hf.2.2.2.2.2.2

/-- With no embedded nul, the inner runner always records exactly the
composed text as submitted. -/
theorem run_inner_submitted_ok (Doc : Type)
    (parse : String → Except String Doc) (engine : Engine) (command : String)
    (st : GatewayState) (hcs : nulPosition command = none) :
    (Lvm._run parse engine command st).2.submitted =
      st.submitted ++ [command] := by
  unfold Lvm._run
  rcases hc2 : cstringFromStr command with p | s
  · unfold cstringFromStr at hc2
    rw [hcs] at hc2
    cases hc2
  · simp only [hc2]
    rcases hre : runEvents (engine.runBehavior command).2
        { st with runCalls := st.runCalls + 1,
                  submitted := st.submitted ++ [command] } with _ | st2
    · simp [hre]
    · simp only [hre]
      have hf := runEvents_frame _ _ _ hre
      split
      · split
        · exact hf.2.2.2.2.2.2
        · split
          · exact hf.2.2.2.2.2.2
          · split
            · exact hf.2.2.2.2.2.2
            · exact hf.2.2.2.2.2.2
      · exact hf.2.2.2.2.2.2

/-- C9: the text submitted to the engine is never the caller's text
verbatim: in the ready state a run submits exactly the caller's text
followed by a space and the fixed protocol suffix; in any state the
submission trace either grows by exactly that composed text or not at all;
and the composed text always differs from the caller's text. -/
theorem c9_protocol_suffix (Doc : Type) (parse : String → Except String Doc)
    (engine : Engine) (command : String) :
    (∀ st : GatewayState, st.lvmPoisoned = false →
      st.lvmCell = some (.ok ()) →
      nulPosition (command ++ " " ++ DEFAULT_LVM_FLAGS) = none →
      (Lvm.run parse engine command st).2.submitted =
        st.submitted ++ [command ++ " " ++ DEFAULT_LVM_FLAGS]) ∧
    (∀ st : GatewayState,
      (Lvm.run parse engine command st).2.submitted = st.submitted ∨
      (Lvm.run parse engine command st).2.submitted =
        st.submitted ++ [command ++ " " ++ DEFAULT_LVM_FLAGS]) ∧
    command ++ " " ++ DEFAULT_LVM_FLAGS ≠ command := by
  refine ⟨?_, ?_, ?_⟩
  · intro st hp hc hcs
    have hp2 : ¬(st.lvmPoisoned = true) := by simp [hp]
    unfold Lvm.run Lvm.acquire_and forceLVM
    have hin := run_inner_submitted_ok Doc parse engine
      (command ++ " " ++ DEFAULT_LVM_FLAGS) st hcs
    rcases hrun : Lvm._run parse engine
        (command ++ " " ++ DEFAULT_LVM_FLAGS) st with ⟨o, st2⟩
    rw [hrun] at hin
    simp only at hin
    cases o <;> simp [hp2, hc, hrun, hin]
  · intro st
    unfold Lvm.run Lvm.acquire_and forceLVM
    by_cases hp : st.lvmPoisoned
    · simp [hp]
    · have hps : st.lvmPoisoned = false := by simpa using hp
      rcases hcell : st.lvmCell with _ | r
      · by_cases hio : engine.initOk
        · have hin := run_inner_submitted Doc parse engine
            (command ++ " " ++ DEFAULT_LVM_FLAGS)
            { st with initCalls := st.initCalls + 1, lvmCell := some (.ok ()) }
          rcases hrun : Lvm._run parse engine
              (command ++ " " ++ DEFAULT_LVM_FLAGS)
              { st with initCalls := st.initCalls + 1,
                        lvmCell := some (.ok ()) } with ⟨o, st2⟩
          rw [hrun] at hin
          simp only at hin
          rw [hps] at hrun
          cases o <;> rcases hin with h | h <;>
            simp [hps, hcell, hio, hrun, h]
        · left
          simp [hps, hcell, hio]
      · rcases r with e | u
        · left
          simp [hps, hcell]
        · have hin := run_inner_submitted Doc parse engine
            (command ++ " " ++ DEFAULT_LVM_FLAGS) st
          rcases hrun : Lvm._run parse engine
              (command ++ " " ++ DEFAULT_LVM_FLAGS) st with ⟨o, st2⟩
          rw [hrun] at hin
          simp only at hin
          cases o <;> rcases hin with h | h <;>
            simp [hps, hcell, hrun, h]
  · intro hcon
    have hlen := congrArg String.length hcon
    have hf : DEFAULT_LVM_FLAGS.length = 19 := by decide
    have hsp : (" " : String).length = 1 := by decide
    simp only [String.length_append, hf, hsp] at hlen
    omega

/-- Witness for C9: running `pvs` from the ready state records exactly
`pvs --reportformat json` as the submitted text. -/
theorem c9_protocol_suffix_witness :
    (Lvm.run (fun _ => (Except.error "" : Except String Unit))
      ⟨true, fun _ => (5, [])⟩ "pvs" initReadyState).2.submitted =
      initReadyState.submitted ++ ["pvs" ++ " " ++ DEFAULT_LVM_FLAGS] :=
  (c9_protocol_suffix Unit (fun _ => Except.error "")
    ⟨true, fun _ => (5, [])⟩ "pvs").1 initReadyState rfl rfl (by decide)

/-- The native-code mapping never produces the data-channel variant. -/
theorem ofInt_ne_data_channel (v : Int) :
    CommandRetCode.ofInt v ≠ .DataChannelPoisoned := by
  unfold CommandRetCode.ofInt
  split
  · simp
  · split
    · simp
    · split
      · simp
      · split
        · simp
        · split <;> simp

/-- The inner runner never reports `DataChannelPoisoned`. -/
theorem run_inner_no_data_channel (Doc : Type)
    (parse : String → Except String Doc) (engine : Engine) (command : String)
    (st : GatewayState) :
    (Lvm._run parse engine command st).1 ≠
      .value (.error .DataChannelPoisoned) := by
  unfold Lvm._run
  rcases hc2 : cstringFromStr command with p | s
  · simp [hc2]
  · simp only [hc2]
    rcases hre : runEvents (engine.runBehavior command).2
        { st with runCalls := st.runCalls + 1,
                  submitted := st.submitted ++ [command] } with _ | st2
    · simp [hre]
    · simp only [hre]
      cases hx : CommandRetCode.ofInt (engine.runBehavior command).1
      case DataChannelPoisoned => exact absurd hx (ofInt_ne_data_channel _)
      case CommandSucceeded =>
        split
        · split_ifs with hcp
          · simp
          · rcases hch : st2.channel with _ | ⟨d, rest⟩
            · simp [hch]
            · rcases hpd : parse d with doc | e <;> simp [hch, hpd]
        · exact absurd rfl (by assumption)
      all_goals simp

/-- C10: no run ever returns the `DataChannelPoisoned` variant, and a
failure to lock the handoff channel (its mutex poisoned) after a successful
engine invocation is surfaced as `GlobalStatePoisoned` instead. -/
theorem c10_no_data_channel_poisoned (Doc : Type)
    (parse : String → Except String Doc) (engine : Engine)
    (command : String) :
    (∀ st : GatewayState,
      (Lvm.run parse engine command st).1 ≠
        .value (.error .DataChannelPoisoned)) ∧
    (∀ (st st2 : GatewayState),
      st.lvmPoisoned = false → st.lvmCell = some (.ok ()) →
      nulPosition (command ++ " " ++ DEFAULT_LVM_FLAGS) = none →
      runEvents (engine.runBehavior (command ++ " " ++ DEFAULT_LVM_FLAGS)).2
        { st with runCalls := st.runCalls + 1,
                  submitted := st.submitted ++
                    [command ++ " " ++ DEFAULT_LVM_FLAGS] } = some st2 →
      CommandRetCode.ofInt
        (engine.runBehavior (command ++ " " ++ DEFAULT_LVM_FLAGS)).1 =
        .CommandSucceeded →
      st2.channelPoisoned = true →
      (Lvm.run parse engine command st).1 =
        .value (.error .GlobalStatePoisoned)) := by
  constructor
  · intro st
    unfold Lvm.run Lvm.acquire_and forceLVM
    by_cases hp : st.lvmPoisoned
    · simp [hp]
    · have hps : st.lvmPoisoned = false := by simpa using hp
      rcases hcell : st.lvmCell with _ | r
      · by_cases hio : engine.initOk
        · have hni := run_inner_no_data_channel Doc parse engine
            (command ++ " " ++ DEFAULT_LVM_FLAGS)
            { st with initCalls := st.initCalls + 1, lvmCell := some (.ok ()) }
          rcases hrun : Lvm._run parse engine
              (command ++ " " ++ DEFAULT_LVM_FLAGS)
              { st with initCalls := st.initCalls + 1,
                        lvmCell := some (.ok ()) } with ⟨o, st2⟩
          rw [hrun] at hni
          simp only at hni
          rw [hps] at hrun
          cases o
          · simpa [hps, hcell, hio, hrun] using hni
          · simp [hps, hcell, hio, hrun]
          · simp [hps, hcell, hio, hrun]
        · simp [hps, hcell, hio]
      · rcases r with e | u
        · simp [hps, hcell]
        · have hni := run_inner_no_data_channel Doc parse engine
            (command ++ " " ++ DEFAULT_LVM_FLAGS) st
          rcases hrun : Lvm._run parse engine
              (command ++ " " ++ DEFAULT_LVM_FLAGS) st with ⟨o, st2⟩
          rw [hrun] at hni
          simp only at hni
          cases o
          · simpa [hps, hcell, hrun] using hni
          · simp [hps, hcell, hrun]
          · simp [hps, hcell, hrun]
  · intro st st2 hp hc hcs hev hrc hchp
    have hc2 : cstringFromStr (command ++ " " ++ DEFAULT_LVM_FLAGS) =
        .ok (command ++ " " ++ DEFAULT_LVM_FLAGS) := by
      unfold cstringFromStr; rw [hcs]
    rw [hp, hc] at hev
    unfold Lvm.run Lvm.acquire_and forceLVM Lvm._run
    simp [hp, hc, hc2, hev, hrc, hchp]

/-- Witness for C10: from a concrete state whose channel mutex is poisoned,
a successful engine invocation surfaces `GlobalStatePoisoned`. -/
theorem c10_no_data_channel_poisoned_witness :
    (Lvm.run (fun _ => (Except.error "" : Except String Unit))
      ⟨true, fun _ => (1, [])⟩ "pvs"
      { initReadyState with channelPoisoned := true }).1 =
      .value (.error .GlobalStatePoisoned) :=
  (c10_no_data_channel_poisoned Unit (fun _ => Except.error "")
    ⟨true, fun _ => (1, [])⟩ "pvs").2
    { initReadyState with channelPoisoned := true }
    { initReadyState with channelPoisoned := true, runCalls := 1, submitted := ["pvs" ++ " " ++ DEFAULT_LVM_FLAGS] }
    rfl rfl (by decide) rfl rfl rfl
